import Mathlib

/-!
Verification development for the netsplode library: a connection tracker
(context.py) and a TCP reset engine (networking.py).

The reset engine is embedded as a pure function from the resolved
connection, the strategy flags, the capture-capability probe and the
captured frame (capture and transmission are external collaborators) to
the list of externally visible actions it performs, or an error when a
peer-name lookup on an unconnected socket raises.  The connection
tracker and the socket lifecycle shim are embedded as a state machine
over lifecycle events.
-/

namespace Netsplode

/-! ## Protocol and shutdown constants (values of the Python socket module) -/

def IPPROTO_TCP : Nat := 6
def IPPROTO_UDP : Nat := 17
def SHUT_RD : Nat := 0
def SHUT_WR : Nat := 1
def SHUT_RDWR : Nat := 2

/-! ## Frames -/

/-- TCP flag bits of a segment, as scapy exposes them. -/
structure TCPFlags where
  fin : Bool
  syn : Bool
  rst : Bool
  psh : Bool
  ack : Bool
  urg : Bool
deriving DecidableEq, Repr

/-- TCP payload of a captured or forged frame: ports, sequence and
acknowledgment numbers, advertised window and flags. -/
structure TCPSeg where
  sport : Nat
  dport : Nat
  seq : Nat
  ack : Nat
  window : Nat
  flags : TCPFlags
deriving DecidableEq, Repr

/-- An IP frame carrying a TCP segment.  Addresses are abstracted to
numbers; the IPv4/IPv6 distinction in the source only selects the class
of the forged packet and never changes which fields are swapped. -/
structure IPFrame where
  src : Nat
  dst : Nat
  tcp : TCPSeg
deriving DecidableEq, Repr

/-! ## Sockets and connection objects -/

/-- A resolved socket handle.  The proto field mirrors sock.proto.
getpeername raises an OS error when the socket is not connected, which
the embedding models as peername = none; getsockname always succeeds. -/
structure Sock where
  proto : Nat
  peername : Option (Nat × Nat)
  sockname : Nat × Nat
deriving DecidableEq, Repr

/-- A connection object as seen by the duck-typed resolver
socket_for_connection.  The Boolean fields record which attribute probes
succeed; asSock is the object itself viewed as a socket (used when the
object is a socket instance or socket-like); the Option fields hold the
socket reachable through each accessor when the probe succeeds. -/
structure Connection where
  isSocketInst : Bool
  hasSetsockopt : Bool
  hasGetpeername : Bool
  hasGetsockname : Bool
  isTransportOrStream : Bool
  extraInfoSocket : Option Sock
  socketAttr : Option Sock
  transportStreamSocketAttr : Option Sock
  asSock : Sock
deriving DecidableEq, Repr

/-- is_socketlike from networking.py: the object has setsockopt,
getpeername and getsockname attributes. -/
def is_socketlike (c : Connection) : Bool :=
  c.hasSetsockopt && c.hasGetpeername && c.hasGetsockname

/-- socket_for_connection from networking.py: the four probes in source
order; returns none when no shape matches. -/
def socket_for_connection (c : Connection) : Option Sock :=
  if c.isSocketInst || is_socketlike c then
    some c.asSock
  else if c.isTransportOrStream then
    c.extraInfoSocket
  else
    match c.socketAttr with
    | some s => some s
    | none =>
      match c.transportStreamSocketAttr with
      | some s => some s
      | none => none

/-! ## RST injection (reset_tcp_stream_of_eth_frame) -/

/-- The truthiness of tcp_payload.flags AND the string FRS in scapy:
true when any of FIN, RST, SYN is set. -/
def flagsFRS (f : TCPFlags) : Bool := f.fin || f.rst || f.syn

/-- The flag byte of the forged packet: the string R in scapy, RST
alone. -/
def rst_only_flags : TCPFlags :=
  { fin := false, syn := false, rst := true, psh := false
    ack := false, urg := false }

/-- The reset packet built at lines 166-174 of networking.py: IP
source/destination swapped, TCP ports swapped, flags R, sequence number
equal to the acknowledgment number of the captured frame.  The scapy
defaults fill the remaining TCP fields (ack 0, window 8192). -/
def forge_reset_packet (frame : IPFrame) : IPFrame :=
  { src := frame.dst
    dst := frame.src
    tcp := { sport := frame.tcp.dport
             dport := frame.tcp.sport
             seq := frame.tcp.ack
             ack := 0
             window := 8192
             flags := rst_only_flags } }

/-- One iteration of the injection loop at lines 177-179.  The mutable
state is the seq field of the captured frame (which the loop body
increments by i * window) paired with the list of frames handed to send;
the frame handed to send is reset_packet, which the loop never
modifies. -/
def injection_step (window : Nat) (reset_packet : IPFrame)
    (st : Nat × List IPFrame) (i : Nat) : Nat × List IPFrame :=
  (st.1 + i * window, st.2 ++ [reset_packet])

/-- reset_tcp_stream_of_eth_frame from networking.py: give up when the
captured frame already carries FIN, RST or SYN; otherwise build the
reset packet and run the injection loop, returning the frames
transmitted in order. -/
def reset_tcp_stream_of_eth_frame (frame : IPFrame) (severity : Nat) :
    List IPFrame :=
  if flagsFRS frame.tcp.flags then []
  else
    let reset_packet := forge_reset_packet frame
    let window := frame.tcp.window
    ((List.range severity).foldl (injection_step window reset_packet)
      (frame.tcp.seq, [])).2

/-! ## The reset engine (reset_connection) -/

/-- An externally visible action of one blocking reset call: the
abortive close of the resolved socket, or the transmission of one forged
frame. -/
inductive Action where
  | abortiveClose : Action
  | sendPacket : IPFrame → Action
deriving DecidableEq, Repr

/-- reset_tcp_stream_of_peers from networking.py, with the sniff
primitive abstracted into the captured argument (none models a capture
timeout with zero frames).  Returns the actions performed and the
Boolean the source returns. -/
def reset_tcp_stream_of_peers (captured : Option IPFrame) :
    List Action × Bool :=
  match captured with
  | some frame =>
      ((reset_tcp_stream_of_eth_frame frame 50).map Action.sendPacket, true)
  | none => ([], false)

/-- reset_connection from networking.py (the blocking path, after the
optional delay).  use_abortive_close is the tri-state flag; can_sniff is
the result of the capture-capability probe; captured is the outcome of
the capture primitive on the RST-injection path.  The result is the
list of actions performed, or an error when getpeername raises because
the socket is not connected. -/
def reset_connection (conn : Connection) (use_abortive_close : Option Bool)
    (can_sniff : Bool) (captured : Option IPFrame) :
    Except Unit (List Action) :=
  match socket_for_connection conn with
  | none => Except.ok []
  | some sock =>
    if use_abortive_close = some true then
      Except.ok [Action.abortiveClose]
    else if use_abortive_close ≠ some false ∧ can_sniff = false then
      Except.ok [Action.abortiveClose]
    else if sock.proto = IPPROTO_TCP then
      match sock.peername with
      | none => Except.error ()
      | some _ =>
        let r := reset_tcp_stream_of_peers captured
        if r.2 = false ∧ use_abortive_close ≠ some false then
          Except.ok (r.1 ++ [Action.abortiveClose])
        else
          Except.ok r.1
    else
      Except.ok []

/-! ## The connection tracker (context.py) -/

/-- ConnectionTracker from context.py: two sets of live TCP
connections.  Connections are identified by handle identity, abstracted
to a number. -/
structure ConnectionTracker where
  client_tcp_connections : Finset Nat
  server_tcp_connections : Finset Nat
deriving DecidableEq

/-- The freshly constructed tracker: both sets empty. -/
def ConnectionTracker.empty : ConnectionTracker := ⟨∅, ∅⟩

/-- add_client_tcp_connection: set.add on the client set. -/
def ConnectionTracker.add_client_tcp_connection (t : ConnectionTracker)
    (c : Nat) : ConnectionTracker :=
  { t with client_tcp_connections := insert c t.client_tcp_connections }

/-- add_server_tcp_connection: set.add on the server set. -/
def ConnectionTracker.add_server_tcp_connection (t : ConnectionTracker)
    (c : Nat) : ConnectionTracker :=
  { t with server_tcp_connections := insert c t.server_tcp_connections }

/-- remove_tcp_connection: set.discard on both sets (discard never
raises, whether or not the element is present). -/
def ConnectionTracker.remove_tcp_connection (t : ConnectionTracker)
    (c : Nat) : ConnectionTracker :=
  ⟨t.client_tcp_connections.erase c, t.server_tcp_connections.erase c⟩

/-- reset_client_tcp_connections from context.py: copy the client set
(the snapshot), hand the copy to the reset coordinator, then subtract
the copy from the live set.  addedDuring is the set of connections that
concurrent lifecycle events insert into the client set between the copy
and the subtraction, so the live set at subtraction time is the union.
The reset calls themselves act on sockets, not on the tracker, so the
tracker outcome is fully described by the set subtraction. -/
def ConnectionTracker.reset_client_tcp_connections (t : ConnectionTracker)
    (addedDuring : Finset Nat) : ConnectionTracker :=
  let to_reset := t.client_tcp_connections
  { t with client_tcp_connections :=
      (t.client_tcp_connections ∪ addedDuring) \ to_reset }

/-! ## The socket lifecycle shim (NetsplodeConnectionsTrackingSocket) -/

/-- A socket lifecycle event observed through the shim.  Each carries
the connection identity and, where the shim consults it, the proto of
the socket.  connectOk is a connect call that returns, connectWouldBlock
one that raises BlockingIOError (re-raised after the bookkeeping),
connectFail one that raises any other error, connect_ex a connect_ex
call (any status code), accept an accept call yielding the new
connection, shutdown a shutdown call with its how argument, close a
close call. -/
inductive SocketEvent where
  | connectOk : Nat → Nat → SocketEvent
  | connectWouldBlock : Nat → Nat → SocketEvent
  | connectFail : Nat → Nat → SocketEvent
  | connect_ex : Nat → Nat → SocketEvent
  | accept : Nat → Nat → SocketEvent
  | shutdown : Nat → Nat → SocketEvent
  | close : Nat → SocketEvent
deriving DecidableEq, Repr

/-- The effect of one shim-observed event on the tracker, straight from
the method bodies of NetsplodeConnectionsTrackingSocket in context.py. -/
def trackEvent (t : ConnectionTracker) : SocketEvent → ConnectionTracker
  | SocketEvent.connectOk c proto =>
      if proto = IPPROTO_TCP then t.add_client_tcp_connection c else t
  | SocketEvent.connectWouldBlock c proto =>
      if proto = IPPROTO_TCP then t.add_client_tcp_connection c else t
  | SocketEvent.connectFail _ _ => t
  | SocketEvent.connect_ex c proto =>
      if proto = IPPROTO_TCP then t.add_client_tcp_connection c else t
  | SocketEvent.accept c proto =>
      if proto = IPPROTO_TCP then t.add_server_tcp_connection c else t
  | SocketEvent.shutdown c how =>
      if how = SHUT_RDWR then t.remove_tcp_connection c else t
  | SocketEvent.close c => t.remove_tcp_connection c

/-- Run a sequence of lifecycle events from the empty tracker. -/
def runEvents (evts : List SocketEvent) : ConnectionTracker :=
  evts.foldl trackEvent ConnectionTracker.empty

/-- The identities that occur in connect-side events (connectOk,
connectWouldBlock, connect_ex) of a trace: only these can enter the
client set. -/
def connectIds : List SocketEvent → Finset Nat
  | [] => ∅
  | SocketEvent.connectOk c _ :: rest => insert c (connectIds rest)
  | SocketEvent.connectWouldBlock c _ :: rest => insert c (connectIds rest)
  | SocketEvent.connect_ex c _ :: rest => insert c (connectIds rest)
  | _ :: rest => connectIds rest

/-- The identities that occur in accept events of a trace: only these
can enter the server set. -/
def acceptIds : List SocketEvent → Finset Nat
  | [] => ∅
  | SocketEvent.accept c _ :: rest => insert c (acceptIds rest)
  | _ :: rest => acceptIds rest

/-! ## Concrete instances used to exercise the definitions -/

/-- A captured data frame: ACK flag only, ack 1000, window 100. -/
def f0 : IPFrame :=
  { src := 10, dst := 20
    tcp := { sport := 1111, dport := 2222, seq := 5000, ack := 1000,
             window := 100
             flags := { fin := false, syn := false, rst := false,
                        psh := false, ack := true, urg := false } } }

/-- A connected TCP socket. -/
def sockTCP : Sock :=
  { proto := IPPROTO_TCP, peername := some (1, 2), sockname := (3, 4) }

/-- A TCP socket that is not connected: getpeername raises. -/
def sockTCPUnconn : Sock :=
  { proto := IPPROTO_TCP, peername := none, sockname := (3, 4) }

/-- A UDP socket. -/
def sockUDP : Sock :=
  { proto := IPPROTO_UDP, peername := some (1, 2), sockname := (3, 4) }

/-- Wrap a socket as a connection object that is a socket instance. -/
def connOf (s : Sock) : Connection :=
  { isSocketInst := true, hasSetsockopt := true, hasGetpeername := true,
    hasGetsockname := true, isTransportOrStream := false,
    extraInfoSocket := none, socketAttr := none,
    transportStreamSocketAttr := none, asSock := s }

def connTCP : Connection := connOf sockTCP

def connTCPUnconn : Connection := connOf sockTCPUnconn

def connUDP : Connection := connOf sockUDP

/-- A connection object matching none of the four resolver shapes. -/
def connNoShape : Connection :=
  { isSocketInst := false, hasSetsockopt := false, hasGetpeername := false,
    hasGetsockname := false, isTransportOrStream := false,
    extraInfoSocket := none, socketAttr := none,
    transportStreamSocketAttr := none, asSock := sockUDP }

/-! ## Helper lemmas -/

/-- The injection loop appends one copy of the reset packet per
iteration: the list handed to send is the accumulator followed by one
copy per element of the index list, whatever the index values and the
running seq field of the captured frame. -/
theorem injection_foldl_snd (window : Nat) (rp : IPFrame) :
    ∀ (l : List Nat) (s : Nat) (acc : List IPFrame),
      (l.foldl (injection_step window rp) (s, acc)).2
        = acc ++ List.replicate l.length rp := by
  intro l
  induction l with
  | nil => intro s acc; simp
  | cons i rest ih =>
      intro s acc
      rw [List.foldl_cons]
      show ((rest.foldl (injection_step window rp)
        (s + i * window, acc ++ [rp]))).2
          = acc ++ List.replicate (i :: rest).length rp
      rw [ih]
      simp [List.replicate_succ]

/-- On a frame free of FIN, RST and SYN, the injection transmits the
forged reset packet severity times, unchanged every time. -/
theorem reset_tcp_stream_replicate (frame : IPFrame)
    (h : flagsFRS frame.tcp.flags = false) (severity : Nat) :
    reset_tcp_stream_of_eth_frame frame severity
      = List.replicate severity (forge_reset_packet frame) := by
  unfold reset_tcp_stream_of_eth_frame
  rw [if_neg (by simp [h])]
  rw [injection_foldl_snd]
  simp

/-- connectIds of a cons splits as a union. -/
theorem connectIds_cons (e : SocketEvent) (rest : List SocketEvent) :
    connectIds (e :: rest) = connectIds [e] ∪ connectIds rest := by
  cases e <;> simp [connectIds, Finset.insert_eq]

/-- acceptIds of a cons splits as a union. -/
theorem acceptIds_cons (e : SocketEvent) (rest : List SocketEvent) :
    acceptIds (e :: rest) = acceptIds [e] ∪ acceptIds rest := by
  cases e <;> simp [acceptIds, Finset.insert_eq]

/-- connectIds distributes over append. -/
theorem connectIds_append (p q : List SocketEvent) :
    connectIds (p ++ q) = connectIds p ∪ connectIds q := by
  induction p with
  | nil => simp [connectIds]
  | cons e rest ih =>
      rw [List.cons_append, connectIds_cons, ih, connectIds_cons e rest,
        Finset.union_assoc]

/-- acceptIds distributes over append. -/
theorem acceptIds_append (p q : List SocketEvent) :
    acceptIds (p ++ q) = acceptIds p ∪ acceptIds q := by
  induction p with
  | nil => simp [acceptIds]
  | cons e rest ih =>
      rw [List.cons_append, acceptIds_cons, ih, acceptIds_cons e rest,
        Finset.union_assoc]

/-- One event can only grow the client set by identities named in its
connect-side events. -/
theorem trackEvent_client_subset (t : ConnectionTracker) (e : SocketEvent) :
    (trackEvent t e).client_tcp_connections
      ⊆ t.client_tcp_connections ∪ connectIds [e] := by
  cases e <;>
    simp only [trackEvent, connectIds,
      ConnectionTracker.add_client_tcp_connection,
      ConnectionTracker.add_server_tcp_connection,
      ConnectionTracker.remove_tcp_connection] <;>
    try split_ifs
  all_goals
    first
      | exact Finset.subset_union_left
      | exact (Finset.erase_subset _ _).trans Finset.subset_union_left
      | (intro a ha
         simp only [Finset.mem_union, Finset.mem_insert, Finset.mem_erase,
           Finset.union_empty] at *
         tauto)

/-- One event can only grow the server set by identities named in its
accept events. -/
theorem trackEvent_server_subset (t : ConnectionTracker) (e : SocketEvent) :
    (trackEvent t e).server_tcp_connections
      ⊆ t.server_tcp_connections ∪ acceptIds [e] := by
  cases e <;>
    simp only [trackEvent, acceptIds,
      ConnectionTracker.add_client_tcp_connection,
      ConnectionTracker.add_server_tcp_connection,
      ConnectionTracker.remove_tcp_connection] <;>
    try split_ifs
  all_goals
    first
      | exact Finset.subset_union_left
      | exact (Finset.erase_subset _ _).trans Finset.subset_union_left
      | (intro a ha
         simp only [Finset.mem_union, Finset.mem_insert, Finset.mem_erase,
           Finset.union_empty] at *
         tauto)

/-- Running a trace can only grow the client set by connect-side
identities of the trace. -/
theorem foldl_client_subset (evts : List SocketEvent) :
    ∀ t : ConnectionTracker,
      (evts.foldl trackEvent t).client_tcp_connections
        ⊆ t.client_tcp_connections ∪ connectIds evts := by
  induction evts with
  | nil => intro t; simp [connectIds]
  | cons e rest ih =>
      intro t
      rw [List.foldl_cons]
      refine (ih (trackEvent t e)).trans ?_
      rw [connectIds_cons]
      refine Finset.union_subset_union_left (trackEvent_client_subset t e)
        |>.trans ?_
      rw [Finset.union_assoc]

/-- Running a trace can only grow the server set by accept identities of
the trace. -/
theorem foldl_server_subset (evts : List SocketEvent) :
    ∀ t : ConnectionTracker,
      (evts.foldl trackEvent t).server_tcp_connections
        ⊆ t.server_tcp_connections ∪ acceptIds evts := by
  induction evts with
  | nil => intro t; simp [acceptIds]
  | cons e rest ih =>
      intro t
      rw [List.foldl_cons]
      refine (ih (trackEvent t e)).trans ?_
      rw [acceptIds_cons]
      refine Finset.union_subset_union_left (trackEvent_server_subset t e)
        |>.trans ?_
      rw [Finset.union_assoc]

/-! ## Claim theorems -/

/-- C1 (counterexample): for a resolved UDP socket with
use_abortive_close unset and packet capture available, reset_connection
performs no action at all, in particular no abortive close, refuting the
claim that a non-TCP socket receives an abortive close when a strategy
must be chosen. -/
theorem c1_nontcp_counterexample :
    reset_connection connUDP none true none = Except.ok [] ∧
    reset_connection connUDP none true none
      ≠ Except.ok [Action.abortiveClose] := by
  refine ⟨rfl, ?_⟩
  rw [show reset_connection connUDP none true none
    = Except.ok ([] : List Action) from rfl]
  simp

/-- C1 (amended): for every resolved socket whose protocol is not TCP,
when use_abortive_close is unset and packet capture is available, reset
performs no action at all on the socket; and whatever the flags and
capture outcome, the reset of a non-TCP socket never transmits a packet
(RST injection is never attempted): its outcome is either no action or
a single abortive close. -/
theorem c1_nontcp_no_injection (conn : Connection) (sock : Sock)
    (hres : socket_for_connection conn = some sock)
    (hproto : sock.proto ≠ IPPROTO_TCP) :
    (∀ cap : Option IPFrame,
      reset_connection conn none true cap = Except.ok []) ∧
    (∀ (uac : Option Bool) (cs : Bool) (cap : Option IPFrame),
      reset_connection conn uac cs cap = Except.ok [] ∨
      reset_connection conn uac cs cap
        = Except.ok [Action.abortiveClose]) := by
  constructor
  · intro cap
    simp [reset_connection, hres, hproto]
  · intro uac cs cap
    by_cases h1 : uac = some true
    · right; simp [reset_connection, hres, h1]
    · by_cases h2 : uac ≠ some false ∧ cs = false
      · right; simp [reset_connection, hres, h1, h2]
      · left; simp [reset_connection, hres, h1, h2, hproto]

/-- C1 (witness for the amended claim): the UDP connection instance. -/
theorem c1_nontcp_no_injection_witness :
    reset_connection connUDP none true none = Except.ok [] ∧
    (reset_connection connUDP (some false) true (some f0) = Except.ok [] ∨
     reset_connection connUDP (some false) true (some f0)
       = Except.ok [Action.abortiveClose]) :=
  ⟨(c1_nontcp_no_injection connUDP sockUDP rfl (by decide)).1 none,
   (c1_nontcp_no_injection connUDP sockUDP rfl (by decide)).2
     (some false) true (some f0)⟩

/-- C2 (behavior at the failing input): on the captured frame f0 (no
FIN/RST/SYN, ack 1000, window 100) the injection does transmit the
forged RST 50 times (the severity count), but every transmitted packet
carries the same sequence number 1000, the ack of the captured frame:
the loop mutates the seq field of the captured frame, never the packet
it sends, so the sequence number is not incremented by the window size
between attempts as the claim requires. -/
theorem c2_constant_seq_at_failing_input :
    (reset_tcp_stream_of_eth_frame f0 50).length = 50 ∧
    (reset_tcp_stream_of_eth_frame f0 50).map (fun p => p.tcp.seq)
      = List.replicate 50 1000 := by
  rw [reset_tcp_stream_replicate f0 rfl 50]
  constructor
  · simp
  · simp [forge_reset_packet, f0]

/-- C3: for every captured frame with none of FIN, RST, SYN set, the
forged packet swaps the IP source and destination of the captured frame,
swaps its ports, carries exactly the RST flag, and has sequence number
equal to the acknowledgment number of the captured frame; and every
packet the injection transmits is that forged packet. -/
theorem c3_forged_packet_shape (frame : IPFrame)
    (h : flagsFRS frame.tcp.flags = false) :
    (forge_reset_packet frame).src = frame.dst ∧
    (forge_reset_packet frame).dst = frame.src ∧
    (forge_reset_packet frame).tcp.sport = frame.tcp.dport ∧
    (forge_reset_packet frame).tcp.dport = frame.tcp.sport ∧
    (forge_reset_packet frame).tcp.flags = rst_only_flags ∧
    (forge_reset_packet frame).tcp.seq = frame.tcp.ack ∧
    ∀ p ∈ reset_tcp_stream_of_eth_frame frame 50,
      p = forge_reset_packet frame := by
  refine ⟨rfl, rfl, rfl, rfl, rfl, rfl, ?_⟩
  intro p hp
  rw [reset_tcp_stream_replicate frame h 50] at hp
  exact List.eq_of_mem_replicate hp

/-- C3 (witness): the frame f0 satisfies the flag hypothesis and the
forged packet for it has the swapped and copied fields. -/
theorem c3_forged_packet_shape_witness :
    flagsFRS f0.tcp.flags = false ∧
    (forge_reset_packet f0).src = f0.dst ∧
    (forge_reset_packet f0).tcp.seq = f0.tcp.ack :=
  ⟨rfl, (c3_forged_packet_shape f0 rfl).1,
    (c3_forged_packet_shape f0 rfl).2.2.2.2.2.1⟩

/-- C4: for a resolved, connected TCP socket, when use_abortive_close is
explicitly false and no frame is captured before the timeout, reset
performs no action at all; in the default unset mode with capture
available, the capture timeout makes reset fall back to a single
abortive close. -/
theorem c4_explicit_false_forbids_fallback (conn : Connection)
    (sock : Sock) (pn : Nat × Nat) (cs : Bool)
    (hres : socket_for_connection conn = some sock)
    (hproto : sock.proto = IPPROTO_TCP)
    (hpeer : sock.peername = some pn) :
    reset_connection conn (some false) cs none = Except.ok [] ∧
    reset_connection conn none true none
      = Except.ok [Action.abortiveClose] := by
  constructor
  · simp [reset_connection, hres, hproto, hpeer, reset_tcp_stream_of_peers]
  · simp [reset_connection, hres, hproto, hpeer, reset_tcp_stream_of_peers]

/-- C4 (witness): the connected TCP connection instance. -/
theorem c4_explicit_false_forbids_fallback_witness :
    reset_connection connTCP (some false) true none = Except.ok [] ∧
    reset_connection connTCP none true none
      = Except.ok [Action.abortiveClose] :=
  ⟨(c4_explicit_false_forbids_fallback connTCP sockTCP (1, 2) true
      rfl rfl rfl).1,
   (c4_explicit_false_forbids_fallback connTCP sockTCP (1, 2) true
      rfl rfl rfl).2⟩

/-- C5 (counterexample): after an accept of connection 0 followed by a
connect_ex on that same connection (connect_ex returns a status code
such as EISCONN without raising, and the shim registers the socket
regardless of the status), connection 0 is in both tracker sets, so the
client and server sets are not disjoint after every event. -/
theorem c5_disjoint_counterexample :
    ¬ Disjoint
      (runEvents [SocketEvent.accept 0 IPPROTO_TCP,
        SocketEvent.connect_ex 0 IPPROTO_TCP]).client_tcp_connections
      (runEvents [SocketEvent.accept 0 IPPROTO_TCP,
        SocketEvent.connect_ex 0 IPPROTO_TCP]).server_tcp_connections := by
  rw [Finset.not_disjoint_iff]
  exact ⟨0, by decide, by decide⟩

/-- C5 (amended): for every event sequence in which no connection
identity occurs both in a connect-side event (connect, would-block
connect, connect_ex) and in an accept event, the client and server sets
of the tracker are disjoint after every event, that is after running
every initial segment of the sequence from the empty tracker. -/
theorem c5_disjoint_invariant (evts p q : List SocketEvent)
    (hpq : evts = p ++ q)
    (hd : Disjoint (connectIds evts) (acceptIds evts)) :
    Disjoint (runEvents p).client_tcp_connections
      (runEvents p).server_tcp_connections := by
  subst hpq
  rw [Finset.disjoint_left]
  intro a hc hs
  have hc1 : a ∈ connectIds p := by
    have h := foldl_client_subset p ConnectionTracker.empty hc
    simpa [ConnectionTracker.empty] using h
  have hs1 : a ∈ acceptIds p := by
    have h := foldl_server_subset p ConnectionTracker.empty hs
    simpa [ConnectionTracker.empty] using h
  have hc2 : a ∈ connectIds (p ++ q) := by
    rw [connectIds_append]; exact Finset.mem_union_left _ hc1
  have hs2 : a ∈ acceptIds (p ++ q) := by
    rw [acceptIds_append]; exact Finset.mem_union_left _ hs1
  exact Finset.disjoint_left.mp hd hc2 hs2

/-- C5 (witness for the amended claim): a trace with one accepted and
one distinct connected socket keeps the sets disjoint. -/
theorem c5_disjoint_invariant_witness :
    Disjoint
      (runEvents [SocketEvent.accept 0 IPPROTO_TCP,
        SocketEvent.connectOk 1 IPPROTO_TCP]).client_tcp_connections
      (runEvents [SocketEvent.accept 0 IPPROTO_TCP,
        SocketEvent.connectOk 1 IPPROTO_TCP]).server_tcp_connections :=
  c5_disjoint_invariant
    [SocketEvent.accept 0 IPPROTO_TCP, SocketEvent.connectOk 1 IPPROTO_TCP]
    [SocketEvent.accept 0 IPPROTO_TCP, SocketEvent.connectOk 1 IPPROTO_TCP]
    [] (by simp) (by decide)

/-- C6: reset_client_tcp_connections snapshots the client set, and on
return the client set is exactly the set of connections that entered it
after the snapshot (addedDuring minus what the snapshot already held):
disjoint from the snapshot, retaining every concurrently added
connection that the snapshot did not contain, and the server set is
untouched. -/
theorem c6_reset_client_snapshot (t : ConnectionTracker)
    (addedDuring : Finset Nat) :
    (t.reset_client_tcp_connections addedDuring).client_tcp_connections
      = addedDuring \ t.client_tcp_connections ∧
    Disjoint
      ((t.reset_client_tcp_connections addedDuring).client_tcp_connections)
      t.client_tcp_connections ∧
    (t.reset_client_tcp_connections addedDuring).server_tcp_connections
      = t.server_tcp_connections := by
  refine ⟨?_, ?_, rfl⟩
  · show (t.client_tcp_connections ∪ addedDuring) \ t.client_tcp_connections
      = addedDuring \ t.client_tcp_connections
    ext a
    simp only [Finset.mem_sdiff, Finset.mem_union]
    tauto
  · show Disjoint
      ((t.client_tcp_connections ∪ addedDuring) \ t.client_tcp_connections)
      t.client_tcp_connections
    exact Finset.sdiff_disjoint

/-- C7: a shutdown with how = SHUT_RDWR removes the connection from
whichever tracker set contains it (it is in neither set afterwards),
while a read-only or write-only shutdown leaves the tracker unchanged. -/
theorem c7_shutdown_both_removes (t : ConnectionTracker) (c : Nat) :
    c ∉ (trackEvent t
      (SocketEvent.shutdown c SHUT_RDWR)).client_tcp_connections ∧
    c ∉ (trackEvent t
      (SocketEvent.shutdown c SHUT_RDWR)).server_tcp_connections ∧
    trackEvent t (SocketEvent.shutdown c SHUT_RD) = t ∧
    trackEvent t (SocketEvent.shutdown c SHUT_WR) = t := by
  refine ⟨?_, ?_, rfl, rfl⟩
  · show c ∉ (t.remove_tcp_connection c).client_tcp_connections
    exact Finset.not_mem_erase c _
  · show c ∉ (t.remove_tcp_connection c).server_tcp_connections
    exact Finset.not_mem_erase c _

/-- C8: a connection object matching none of the four resolver shapes
resolves to none without raising, and reset_connection on it performs no
action and reports no error, whatever the flags and capture outcome. -/
theorem c8_unresolvable_silent_noop (c : Connection)
    (h1 : c.isSocketInst = false) (h2 : is_socketlike c = false)
    (h3 : c.isTransportOrStream = false) (h4 : c.socketAttr = none)
    (h5 : c.transportStreamSocketAttr = none) :
    socket_for_connection c = none ∧
    ∀ (uac : Option Bool) (cs : Bool) (cap : Option IPFrame),
      reset_connection c uac cs cap = Except.ok [] := by
  have hres : socket_for_connection c = none := by
    simp [socket_for_connection, h1, h2, h3, h4, h5]
  refine ⟨hres, ?_⟩
  intro uac cs cap
  simp [reset_connection, hres]

/-- C8 (witness): the shapeless connection instance. -/
theorem c8_unresolvable_silent_noop_witness :
    socket_for_connection connNoShape = none ∧
    reset_connection connNoShape none true none = Except.ok [] :=
  ⟨(c8_unresolvable_silent_noop connNoShape rfl rfl rfl rfl rfl).1,
   (c8_unresolvable_silent_noop connNoShape rfl rfl rfl rfl rfl).2
     none true none⟩

/-- C9: when a blocking reset reaches the RST-injection path (the flag
is not explicitly true, and either it is explicitly false or capture is
available) on a resolved TCP socket that is not connected, the peer-name
lookup failure propagates to the caller as an error. -/
theorem c9_unconnected_peers_error (conn : Connection) (sock : Sock)
    (uac : Option Bool) (cs : Bool) (cap : Option IPFrame)
    (hres : socket_for_connection conn = some sock)
    (hproto : sock.proto = IPPROTO_TCP)
    (hpeer : sock.peername = none)
    (h1 : uac ≠ some true)
    (h2 : uac = some false ∨ cs = true) :
    reset_connection conn uac cs cap = Except.error () := by
  have hcond : ¬ (uac ≠ some false ∧ cs = false) := by
    rcases h2 with h | h
    · intro hc; exact hc.1 h
    · intro hc; rw [h] at hc; exact absurd hc.2 (by simp)
  simp [reset_connection, hres, h1, hcond, hproto, hpeer]

/-- C9 (witness): the unconnected TCP connection instance with default
flags and capture available. -/
theorem c9_unconnected_peers_error_witness :
    reset_connection connTCPUnconn none true none = Except.error () :=
  c9_unconnected_peers_error connTCPUnconn sockTCPUnconn none true none
    rfl rfl rfl (by decide) (Or.inr rfl)

/-- C10: remove_tcp_connection is total (set.discard never raises):
applied twice it equals applied once, and on a tracker holding the
connection in neither set it is the identity. -/
theorem c10_remove_idempotent (t : ConnectionTracker) (c : Nat) :
    (t.remove_tcp_connection c).remove_tcp_connection c
      = t.remove_tcp_connection c ∧
    (c ∉ t.client_tcp_connections → c ∉ t.server_tcp_connections →
      t.remove_tcp_connection c = t) := by
  constructor
  · simp [ConnectionTracker.remove_tcp_connection, Finset.erase_idem]
  · intro h1 h2
    simp [ConnectionTracker.remove_tcp_connection,
      Finset.erase_eq_of_not_mem h1, Finset.erase_eq_of_not_mem h2]

/-- C10 (witness): removing an absent connection from the empty tracker
is a no-op and idempotent. -/
theorem c10_remove_idempotent_witness :
    (ConnectionTracker.empty.remove_tcp_connection 0).remove_tcp_connection 0
      = ConnectionTracker.empty.remove_tcp_connection 0 ∧
    ConnectionTracker.empty.remove_tcp_connection 0
      = ConnectionTracker.empty :=
  ⟨(c10_remove_idempotent ConnectionTracker.empty 0).1,
   (c10_remove_idempotent ConnectionTracker.empty 0).2
     (by decide) (by decide)⟩

end Netsplode
